import Mathlib

/-!
# Verification of the external book aggregation/import pipeline

Shallow embedding of the aggregation/import subsystem:
`backend/app/services/external_apis.py` (source adapters and multi-source
aggregation), `backend/app/tasks/external_books.py` (background import,
bulk import and metadata refresh tasks) and
`backend/app/api/endpoints/external.py` (interactive import endpoint).

Modelling conventions:
* Upstream JSON payloads are embedded as structures holding exactly the
  keys the Python code reads; `dict.get(k)` becomes an `Option` field and
  `dict.get(k, d)` becomes `Option.getD`.
* Python truthiness on strings (`None` and `""` are falsy) is `truthyStr`.
* Timestamps (`datetime.utcnow()`) are passed in as an abstract `Nat` tick.
* Upstream float ratings are carried opaquely as `Rat`; no arithmetic is
  ever performed on them.
* HTTP calls are abstracted as oracles (`Adapter`, `SearchFn`,
  `AuthorFetch`): a call either yields a decoded payload or raises
  `ExternalAPIError`, exactly the two outcomes the Python call sites
  distinguish.
* The relational store is a list of rows plus an id counter; the unique
  composite index on `(source, external_id)` and the primary key make the
  row insertion order unobservable through the queries the code issues, so
  the transactional upsert is modelled as remove-then-prepend.
-/

namespace BookPipeline

/-- Python `str.startswith(pre)`, computed on the decoded character lists. -/
def pyStartsWith (s pre : String) : Bool :=
  pre.data.isPrefixOf s.data

/-- Fueled worker for `pyReplace`; one unit of fuel per consumed character. -/
def pyReplaceAux : Nat → List Char → List Char → List Char → List Char
  | 0, s, _, _ => s
  | _ + 1, [], _, _ => []
  | fuel + 1, c :: rest, old, new =>
      if old.isPrefixOf (c :: rest) then
        new ++ pyReplaceAux fuel ((c :: rest).drop old.length) old new
      else c :: pyReplaceAux fuel rest old new

/-- Python `str.replace(old, new)`: every non-overlapping occurrence, scanning left
to right. Every call site passes a non-empty fixed `old`, so the empty
pattern (which Python treats as a gap insertion) is never hit; the fuel
`s.length` is enough because each step consumes at least one character. -/
def pyReplace (s old new : String) : String :=
  if old.data = [] then s
  else ⟨pyReplaceAux s.data.length s.data old.data new.data⟩

/-- The value of one decimal digit character. -/
def digitVal (c : Char) : Option Nat :=
  if '0' ≤ c ∧ c ≤ '9' then some (c.toNat - '0'.toNat) else none

/-- A non-empty run of decimal digits, as a number. -/
def parseDigits : List Char → Option Nat
  | [] => none
  | cs =>
      cs.foldl
        (fun acc c =>
          match acc, digitVal c with
          | some n, some d => some (n * 10 + d)
          | _, _ => none)
        (some 0)

/-- Python `int(s)` on the short slices the code feeds it: an optional sign
followed by digits; anything else raises `ValueError` (`none` here).
(Python additionally strips whitespace and allows `_` separators; no
upstream date slice uses those forms.) -/
def pyInt? (s : String) : Option Int :=
  match s.data with
  | '-' :: rest => (parseDigits rest).map (fun n => -(n : Int))
  | '+' :: rest => (parseDigits rest).map (fun n => (n : Int))
  | cs => (parseDigits cs).map (fun n => (n : Int))

/-- Python `s[:n]`: the first `n` characters. -/
def pyTake (s : String) (n : Nat) : String :=
  ⟨s.data.take n⟩

/-- Python truthiness of an optional string: `None` and `""` are falsy. -/
def truthyStr : Option String → Bool
  | none => false
  | some s => s ≠ ""

/-- Python `a or b` on optional strings: `b` when `a` is falsy. -/
def orElseStr (a b : Option String) : Option String :=
  if truthyStr a then a else b

/-- The `ExternalSource` enum from `external_apis.py`. -/
inductive ExternalSource
  | google_books
  | open_library
deriving DecidableEq, Repr

/-- The `.value` of the Python `str`-enum member. -/
def ExternalSource.value : ExternalSource → String
  | .google_books => "google_books"
  | .open_library => "open_library"

/-- One entry of `volumeInfo["industryIdentifiers"]`. -/
structure IndustryIdentifier where
  idType : Option String := none
  identifier : Option String := none
deriving DecidableEq, Repr

/-- The `volumeInfo["imageLinks"]` object; the parser reads exactly these keys. -/
structure ImageLinks where
  thumbnail : Option String := none
  smallThumbnail : Option String := none
  medium : Option String := none
  large : Option String := none
deriving DecidableEq, Repr

/-- The keys of a Google Books `volumeInfo` object read by `_parse_google_book`. -/
structure VolumeInfo where
  title : Option String := none
  authors : Option (List String) := none
  description : Option String := none
  industryIdentifiers : Option (List IndustryIdentifier) := none
  publisher : Option String := none
  publishedDate : Option String := none
  pageCount : Option Int := none
  categories : Option (List String) := none
  language : Option String := none
  imageLinks : Option ImageLinks := none
  previewLink : Option String := none
  infoLink : Option String := none
  averageRating : Option Rat := none
  ratingsCount : Option Int := none
  maturityRating : Option String := none
deriving DecidableEq, Repr

instance : Inhabited VolumeInfo := ⟨{}⟩

/-- A Google Books volume item as read by `_parse_google_book`. The sibling
keys that are only repackaged into `raw_metadata` (`etag`, `selfLink`,
`saleInfo`, `accessInfo`, `searchInfo`) are carried by keeping the whole
item in the raw-metadata slot. -/
structure GoogleVolume where
  id : Option String := none
  volumeInfo : Option VolumeInfo := none
deriving DecidableEq, Repr

/-- An Open Library search `doc` as read by `_parse_open_library_book`. -/
structure OLDoc where
  key : Option String := none
  title : Option String := none
  author_name : Option (List String) := none
  isbn : Option (List String) := none
  publisher : Option (List String) := none
  first_publish_year : Option Int := none
  number_of_pages_median : Option Int := none
  subject : Option (List String) := none
  language : Option (List String) := none
  cover_i : Option Int := none
deriving DecidableEq, Repr

/-- One entry of a work's `authors` list: `author_ref.get("author", {}).get("key", "")`. -/
structure OLAuthorRef where
  author_key : Option String := none
deriving DecidableEq, Repr

/-- A work's `description` is either a bare string or a `{"value": ...}` object. -/
inductive OLDescription
  | str (s : String)
  | obj (value : Option String)
deriving DecidableEq, Repr

/-- An Open Library work payload as read by `get_open_library_book_details`. -/
structure OLWork where
  title : Option String := none
  description : Option OLDescription := none
  subjects : Option (List String) := none
  covers : Option (List Int) := none
  authors : Option (List OLAuthorRef) := none
deriving DecidableEq, Repr

/-- The opaque `raw_metadata` payload: the adapters pass the upstream item
through unmodified, so the embedding carries the whole decoded item. -/
inductive RawMetadata
  | empty
  | googleItem (item : GoogleVolume)
  | openLibraryDoc (doc : OLDoc)
  | openLibraryWork (w : OLWork)
deriving DecidableEq, Repr

/-- Schema `ExternalBookResult`, the unified adapter output (`external_apis.py`). -/
structure ExternalBookResult where
  external_id : String
  source : ExternalSource
  title : String
  authors : List String := []
  description : Option String := none
  isbn_10 : Option String := none
  isbn_13 : Option String := none
  publisher : Option String := none
  published_date : Option String := none
  page_count : Option Int := none
  categories : List String := []
  language : Option String := none
  thumbnail_url : Option String := none
  preview_link : Option String := none
  info_link : Option String := none
  average_rating : Option Rat := none
  ratings_count : Option Int := none
  maturity_rating : Option String := none
  raw_metadata : RawMetadata := .empty
deriving DecidableEq, Repr

/-- Exception `ExternalAPIError`: the one exception type all adapter failures use;
`status_code` is `None` for timeouts and connection errors. -/
structure ExternalAPIError where
  source : ExternalSource
  message : String
  status_code : Option Nat := none
deriving DecidableEq, Repr

/-- Python `str(e)`, as produced by `super().__init__(f"{source.value}: {message}")`. -/
def ExternalAPIError.str (e : ExternalAPIError) : String :=
  e.source.value ++ ": " ++ e.message

/-- Schema `ExternalSearchResponse` from `external_apis.py`. -/
structure ExternalSearchResponse where
  source : ExternalSource
  query : String
  total_items : Int
  items : List ExternalBookResult
  search_time_ms : Int
deriving DecidableEq, Repr

/-! ## Source adapters -/

/-- Constant `MAX_RESULTS_LIMIT` on `ExternalApisService`. -/
def MAX_RESULTS_LIMIT : Int := 40

/-- The `maxResults` request parameter sent upstream by `search_google_books`:
`min(max(1, max_results), self.MAX_RESULTS_LIMIT)`. -/
def googleMaxResultsSent (max_results : Int) : Int :=
  min (max 1 max_results) MAX_RESULTS_LIMIT

/-- The `limit` request parameter sent upstream by `search_open_library`:
`min(max_results, 100)`. -/
def openLibraryLimitSent (max_results : Int) : Int :=
  min max_results 100

/-- One iteration of the ISBN loop in `_parse_google_book`: a matching entry
assigns the corresponding variable unconditionally. -/
def googleIsbnStep (acc : Option String × Option String)
    (ident : IndustryIdentifier) : Option String × Option String :=
  let id_type := ident.idType.getD ""
  if id_type = "ISBN_10" then (ident.identifier, acc.2)
  else if id_type = "ISBN_13" then (acc.1, ident.identifier)
  else acc

/-- The ISBN-extraction loop of `_parse_google_book`. -/
def extractGoogleIsbns (identifiers : List IndustryIdentifier) :
    Option String × Option String :=
  identifiers.foldl googleIsbnStep (none, none)

/-- The thumbnail chain of `_parse_google_book`:
`thumbnail or smallThumbnail or medium or large`. -/
def bestThumbnail (links : ImageLinks) : Option String :=
  orElseStr links.thumbnail
    (orElseStr links.smallThumbnail (orElseStr links.medium links.large))

/-- The guard `if thumbnail_url and thumbnail_url.startswith("http://"): replace(...)`;
Python's `str.replace` replaces every occurrence. -/
def httpsRewrite : Option String → Option String
  | none => none
  | some u =>
      if u ≠ "" ∧ pyStartsWith u "http://" then some (pyReplace u "http://" "https://")
      else some u

/-- Embeds `_parse_google_book`. For well-typed input the `except Exception` guard
cannot fire, so the embedding always returns `some`. -/
def parseGoogleBook (item : GoogleVolume) : Option ExternalBookResult :=
  let volume_info := item.volumeInfo.getD {}
  let isbns := extractGoogleIsbns (volume_info.industryIdentifiers.getD [])
  let image_links := volume_info.imageLinks.getD {}
  let thumbnail_url := httpsRewrite (bestThumbnail image_links)
  some
    { external_id := item.id.getD ""
      source := .google_books
      title := volume_info.title.getD "Unknown Title"
      authors := volume_info.authors.getD []
      description := volume_info.description
      isbn_10 := isbns.1
      isbn_13 := isbns.2
      publisher := volume_info.publisher
      published_date := volume_info.publishedDate
      page_count := volume_info.pageCount
      categories := volume_info.categories.getD []
      language := volume_info.language
      thumbnail_url := thumbnail_url
      preview_link := volume_info.previewLink
      info_link := volume_info.infoLink
      average_rating := volume_info.averageRating
      ratings_count := volume_info.ratingsCount
      maturity_rating := volume_info.maturityRating
      raw_metadata := .googleItem item }

/-- Cover URL construction shared by both Open Library paths. -/
def olCoverUrl (cover_id : Int) : String :=
  "https://covers.openlibrary.org/b/id/" ++ toString cover_id ++ "-M.jpg"

/-- One iteration of the ISBN loop in `_parse_open_library_book`: Open
Library identifiers are bare strings discriminated by length, taken
first-match-wins (`if len(isbn) == 10 and not isbn_10`,
`elif len(isbn) == 13 and not isbn_13`). -/
def olIsbnStep (acc : Option String × Option String) (isbn : String) :
    Option String × Option String :=
  if isbn.length = 10 ∧ ¬ truthyStr acc.1 then (some isbn, acc.2)
  else if isbn.length = 13 ∧ ¬ truthyStr acc.2 then (acc.1, some isbn)
  else acc

/-- The ISBN loop of `_parse_open_library_book` (see `olIsbnStep`). -/
def extractOpenLibraryIsbns (isbns : List String) : Option String × Option String :=
  isbns.foldl olIsbnStep (none, none)

/-- Python `doc.get(k, [None])[0] if doc.get(k) else None`: head of a truthy list. -/
def pyFirstOfList : Option (List String) → Option String
  | some (x :: _) => some x
  | _ => none

/-- Embeds `_parse_open_library_book`. -/
def parseOpenLibraryBook (doc : OLDoc) : Option ExternalBookResult :=
  let work_key := pyReplace (doc.key.getD "") "/works/" ""
  if work_key = "" then none
  else
    let thumbnail_url :=
      match doc.cover_i with
      | some cid => if cid ≠ 0 then some (olCoverUrl cid) else none
      | none => none
    let isbns := extractOpenLibraryIsbns (doc.isbn.getD [])
    some
      { external_id := work_key
        source := .open_library
        title := doc.title.getD "Unknown Title"
        authors := doc.author_name.getD []
        isbn_10 := isbns.1
        isbn_13 := isbns.2
        publisher := pyFirstOfList doc.publisher
        published_date :=
          match doc.first_publish_year with
          | some y => if y ≠ 0 then some (toString y) else none
          | none => none
        page_count := doc.number_of_pages_median
        categories := (doc.subject.getD []).take 5
        language := pyFirstOfList doc.language
        thumbnail_url := thumbnail_url
        info_link := "https://openlibrary.org/works/" ++ work_key
        raw_metadata := .openLibraryDoc doc }

/-- Outcome of the secondary per-author fetch in
`get_open_library_book_details`: a 200 response carrying an optional
`name`, or anything else (non-200 status / raised exception), which the
code silently skips. -/
inductive AuthorFetch
  | ok (name : Option String)
  | failed
deriving DecidableEq, Repr

/-- The author-resolution loop of `get_open_library_book_details`:
one secondary request per non-empty author key; failures drop the author. -/
def resolveAuthors (fetchAuthor : String → AuthorFetch) (refs : List OLAuthorRef) :
    List String :=
  refs.foldl
    (fun acc ref =>
      let author_key := ref.author_key.getD ""
      if author_key ≠ "" then
        match fetchAuthor author_key with
        | .ok name => acc ++ [name.getD "Unknown"]
        | .failed => acc
      else acc)
    []

/-- The 200-path of `get_open_library_book_details`: how a decoded work
payload is turned into the canonical result. -/
def parseOpenLibraryWork (fetchAuthor : String → AuthorFetch) (work_key : String)
    (work : OLWork) : ExternalBookResult :=
  let authors := resolveAuthors fetchAuthor (work.authors.getD [])
  let cover_id : Option Int :=
    match work.covers with
    | some (c :: _) => some c
    | _ => none
  let thumbnail_url :=
    match cover_id with
    | some cid => if cid ≠ 0 then some (olCoverUrl cid) else none
    | none => none
  let description :=
    match work.description with
    | some (.str s) => some s
    | some (.obj v) => some (v.getD "")
    | none => none
  { external_id := work_key
    source := .open_library
    title := work.title.getD "Unknown Title"
    authors := authors
    description := description
    categories := (work.subjects.getD []).take 5
    thumbnail_url := thumbnail_url
    info_link := "https://openlibrary.org/works/" ++ work_key
    raw_metadata := .openLibraryWork work }

/-! ## Aggregator: `search_all_sources` -/

/-- The awaited outcome of one per-source search coroutine: a response, or a
raised `ExternalAPIError` (the only exception class the aggregator catches). -/
abbrev SearchFn := ExternalSource → Except ExternalAPIError ExternalSearchResponse

/-- The empty slot the aggregator writes for a failed source. -/
def emptySearchResponse (source : ExternalSource) (query : String) :
    ExternalSearchResponse :=
  { source := source, query := query, total_items := 0, items := [], search_time_ms := 0 }

/-- Python dict assignment `results[source] = v`: replace the key's entry in
place if present (keys are unique), append otherwise. -/
def dictInsert : List (ExternalSource × ExternalSearchResponse) → ExternalSource →
    ExternalSearchResponse → List (ExternalSource × ExternalSearchResponse)
  | [], k, v => [(k, v)]
  | p :: m, k, v => if p.1 = k then (k, v) :: m else p :: dictInsert m k v

/-- Dict lookup. -/
def dictGet (m : List (ExternalSource × ExternalSearchResponse))
    (k : ExternalSource) : Option ExternalSearchResponse :=
  (m.find? (fun p => decide (p.1 = k))).map (·.2)

/-- One iteration of the fan-out await loop: store the awaited response, or
the empty slot when the coroutine raised `ExternalAPIError`. -/
def searchStep (query : String)
    (results : List (ExternalSource × ExternalSearchResponse))
    (st : ExternalSource × Except ExternalAPIError ExternalSearchResponse) :
    List (ExternalSource × ExternalSearchResponse) :=
  match st.2 with
  | .ok resp => dictInsert results st.1 resp
  | .error _ => dictInsert results st.1 (emptySearchResponse st.1 query)

/-- Embeds `search_all_sources`: defaults the source list, builds one coroutine per
source (the enum dispatch covers every member), then awaits each in turn
(see `searchStep`). -/
def searchAllSources (search : SearchFn) (query : String)
    (sources : Option (List ExternalSource)) :
    List (ExternalSource × ExternalSearchResponse) :=
  let srcs := sources.getD [ExternalSource.google_books, ExternalSource.open_library]
  let tasks := srcs.map (fun s => (s, search s))
  tasks.foldl (searchStep query) []

/-- Observable scheduling events of one per-source search: its HTTP work
starting and finishing. -/
inductive FanoutEvent
  | start (s : ExternalSource)
  | finish (s : ExternalSource)
deriving DecidableEq, Repr

/-- Execution trace of the fan-out loop in `search_all_sources` under asyncio
semantics: `tasks` holds bare coroutine objects (not scheduled Tasks), and a
bare coroutine begins executing only when awaited, so the `for source, task
in tasks: await task` loop runs each source's HTTP work to completion before
the next one starts. -/
def searchAllTrace (srcs : List ExternalSource) : List FanoutEvent :=
  srcs.flatMap (fun s => [FanoutEvent.start s, FanoutEvent.finish s])

/-- Whether a trace issues every call before any completes: all `start`
events precede all `finish` events. -/
def startsBeforeFinishes (trace : List FanoutEvent) : Bool :=
  trace = trace.filter (fun e => e matches .start _) ++
    trace.filter (fun e => e matches .finish _)

/-! ## Import store: the `external_books` table -/

/-- One row of the `external_books` table (`models/external_book.py`). -/
structure ExternalBook where
  id : Nat
  source : String
  external_id : String
  title : String
  authors : List String := []
  description : Option String := none
  cover_url : Option String := none
  published_date : Option String := none
  published_year : Option Int := none
  language : Option String := none
  categories : List String := []
  isbn_10 : Option String := none
  isbn_13 : Option String := none
  publisher : Option String := none
  page_count : Option Int := none
  average_rating : Option Rat := none
  ratings_count : Option Int := none
  metadata_json : RawMetadata := .empty
  preview_link : Option String := none
  info_link : Option String := none
  download_url : Option String := none
  is_imported : Bool := false
  imported_book_id : Option Nat := none
  imported_by_id : Option Nat := none
  imported_at : Option Nat := none
  created_at : Nat := 0
  updated_at : Option Nat := none
  last_fetched_at : Option Nat := none
deriving DecidableEq, Repr

/-- The store: rows plus the primary-key counter. -/
structure Store where
  books : List ExternalBook
  next_id : Nat
deriving DecidableEq, Repr

/-- The query `select(ExternalBook).where(source == s, external_id == eid)` under the
unique composite index: at most one row matches. -/
def findByKey (books : List ExternalBook) (source external_id : String) :
    Option ExternalBook :=
  books.find? (fun b => decide (b.source = source ∧ b.external_id = external_id))

/-- The lookup `db.get(ExternalBook, id)`: primary-key lookup. -/
def findById (books : List ExternalBook) (id : Nat) : Option ExternalBook :=
  books.find? (fun b => decide (b.id = id))

/-- Committing a row under the unique `(source, external_id)` index: the
transactional upsert replaces the (sole) row with that key. Row order is
unobservable through `findByKey`/`findById`, so the row is re-inserted at
the front. -/
def putByKey (books : List ExternalBook) (b : ExternalBook) : List ExternalBook :=
  b :: books.filter (fun x => !(decide (x.source = b.source ∧ x.external_id = b.external_id)))

/-- Committing an in-place update of a row fetched by primary key. -/
def putById (books : List ExternalBook) (b : ExternalBook) : List ExternalBook :=
  b :: books.filter (fun x => !(decide (x.id = b.id)))

/-! ## Import orchestration -/

/-- The published-year guard shared by the import and refresh paths:
`int(published_date[:4])` attempted only when the date is truthy and at
least 4 characters; parse failures leave the year `None`. (Lean's
`String.toInt?` accepts the same sign-prefixed digit strings as Python's
`int` on this 4-character slice, minus exotic forms such as `"1_97"` or
Unicode digits, which no upstream date uses.) -/
def parsePublishedYear : Option String → Option Int
  | none => none
  | some s =>
      if s ≠ "" then
        if s.length ≥ 4 then pyInt? (pyTake s 4) else none
      else none

/-- Caller-supplied metadata overrides: the `title`/`description`/`language`
keys read from `metadata_overrides` (task) or the import request (endpoint). -/
structure MetadataOverrides where
  title : Option String := none
  description : Option String := none
  language : Option String := none
deriving DecidableEq, Repr

/-- Python `override or fallback` where the target column is non-nullable. -/
def overrideStr (override : Option String) (fallback : String) : String :=
  match orElseStr override (some fallback) with
  | some s => s
  | none => fallback

/-- The record-field assignments shared verbatim by the create and update
branches of `import_external_book` and `_import_book_async`. -/
def applyImportFields (b : ExternalBook) (bd : ExternalBookResult)
    (ov : Option MetadataOverrides) (year : Option Int) (user_id : Option Nat)
    (now : Nat) : ExternalBook :=
  { b with
    title := overrideStr (ov.bind (·.title)) bd.title
    authors := bd.authors
    description := orElseStr (ov.bind (·.description)) bd.description
    cover_url := bd.thumbnail_url
    published_date := bd.published_date
    published_year := year
    language := orElseStr (ov.bind (·.language)) bd.language
    categories := bd.categories
    isbn_10 := bd.isbn_10
    isbn_13 := bd.isbn_13
    publisher := bd.publisher
    page_count := bd.page_count
    average_rating := bd.average_rating
    ratings_count := bd.ratings_count
    preview_link := bd.preview_link
    info_link := bd.info_link
    metadata_json := bd.raw_metadata
    is_imported := true
    imported_by_id := user_id
    imported_at := some now
    last_fetched_at := some now }

/-- Outcome of an adapter `getDetails` call: a decoded result, or a raised
`ExternalAPIError`. -/
inductive FetchResult
  | ok (b : ExternalBookResult)
  | err (e : ExternalAPIError)
deriving DecidableEq, Repr

/-- The details-fetch oracle, indexed by source and external id. -/
abbrev Adapter := ExternalSource → String → FetchResult

/-- Schema `ExternalBookImportRequest` (validated request body). -/
structure ImportRequest where
  source : ExternalSource
  external_id : String
  title : Option String := none
  author : Option String := none
  description : Option String := none
  category : Option String := none
  language : Option String := none
deriving DecidableEq, Repr

/-- The override fields the import path reads from the request. -/
def ImportRequest.overrides (req : ImportRequest) : MetadataOverrides :=
  { title := req.title, description := req.description, language := req.language }

/-- Schema `ImportResult` of the import response. -/
structure ImportResult where
  external_id : String
  source : ExternalSource
  success : Bool
  message : String
  external_book_id : Option Nat := none
  error : Option String := none
deriving DecidableEq, Repr

/-- Embeds `import_external_book` (`POST /external/import`). Returns the result,
the store after commit, and the number of adapter `getDetails` calls made.
Mirrors the code: look up by key; short-circuit when the row is
already imported; otherwise fetch, convert an adapter error into a failed result,
and upsert with `is_imported=True`. -/
def importExternalBook (fetch : Adapter) (now : Nat) (user_id : Nat)
    (st : Store) (req : ImportRequest) : ImportResult × Store × Nat :=
  let existing := findByKey st.books req.source.value req.external_id
  if (existing.map ExternalBook.is_imported).getD false then
    ({ external_id := req.external_id, source := req.source, success := true,
       message := "Book already imported",
       external_book_id := existing.map (·.id) }, st, 0)
  else
    match fetch req.source req.external_id with
    | .err e =>
        ({ external_id := req.external_id, source := req.source, success := false,
           message := "Failed to fetch book details", error := some e.str }, st, 1)
    | .ok bd =>
        let published_year := parsePublishedYear bd.published_date
        match existing with
        | some ex =>
            let updated := applyImportFields ex bd (some req.overrides)
              published_year (some user_id) now
            ({ external_id := req.external_id, source := req.source, success := true,
               message := "Book imported successfully",
               external_book_id := some ex.id },
             { st with books := putByKey st.books updated }, 1)
        | none =>
            let base : ExternalBook :=
              { id := st.next_id, source := req.source.value,
                external_id := req.external_id, title := "", created_at := now }
            let new_book := applyImportFields base bd (some req.overrides)
              published_year (some user_id) now
            ({ external_id := req.external_id, source := req.source, success := true,
               message := "Book imported successfully",
               external_book_id := some st.next_id },
             ⟨putByKey st.books new_book, st.next_id + 1⟩, 1)

/-! ## Background tasks (`tasks/external_books.py`) -/

/-- The exceptions that can escape the async import/refresh bodies:
`ExternalAPIError` from the adapter, or `ValueError` on an unsupported
source string. -/
inductive PyExn
  | apiError (e : ExternalAPIError)
  | valueError (msg : String)
deriving DecidableEq, Repr

/-- Python `str(e)` for a caught exception. -/
def PyExn.str : PyExn → String
  | .apiError e => e.str
  | .valueError m => m

/-- The result dict built by the import tasks; keys absent from a given
branch are `none`. -/
structure TaskImportResult where
  success : Bool
  external_id : Option String := none
  source : Option String := none
  external_book_id : Option Nat := none
  message : Option String := none
  error : Option String := none
deriving DecidableEq, Repr

/-- Embeds `_import_book_async`: dispatch on the raw source string (anything else
raises `ValueError`), fetch details (an `ExternalAPIError` propagates to the
caller), parse the year, read the overrides, then create-or-update the row
with `is_imported=True`. Unlike the endpoint, this path has no
already-imported short-circuit. -/
def importBookAsync (fetch : Adapter) (now : Nat) (user_id : Option Nat)
    (st : Store) (source : Option String) (external_id : String)
    (overrides : Option MetadataOverrides) :
    Except PyExn (TaskImportResult × Store) :=
  let src? : Except PyExn ExternalSource :=
    if source = some "google_books" then .ok .google_books
    else if source = some "open_library" then .ok .open_library
    else .error (.valueError "Unsupported source")
  match src? with
  | .error e => .error e
  | .ok src =>
      match fetch src external_id with
      | .err e => .error (.apiError e)
      | .ok bd =>
          let published_year := parsePublishedYear bd.published_date
          match findByKey st.books src.value external_id with
          | some existing =>
              let updated := applyImportFields existing bd overrides
                published_year user_id now
              .ok ({ success := true, external_id := some external_id,
                     source := source, external_book_id := some existing.id,
                     message := some "Book imported successfully" },
                   { st with books := putByKey st.books updated })
          | none =>
              let base : ExternalBook :=
                { id := st.next_id, source := src.value,
                  external_id := external_id, title := "", created_at := now }
              let new_book := applyImportFields base bd overrides
                published_year user_id now
              .ok ({ success := true, external_id := some external_id,
                     source := source, external_book_id := some st.next_id,
                     message := some "Book imported successfully" },
                   ⟨putByKey st.books new_book, st.next_id + 1⟩)

/-- One entry of the `items` list handed to `bulk_import_books`
(`item.get("source")` may be absent; the ids are the validated strings the
endpoint enqueues). -/
structure BulkItem where
  source : Option String := none
  external_id : String
  overrides : Option MetadataOverrides := none
deriving DecidableEq, Repr

/-- The dict returned by `bulk_import_books`. -/
structure BulkReport where
  total : Nat
  successful : Nat
  failed : Nat
  results : List TaskImportResult
deriving DecidableEq, Repr

/-- The failed outcome the `except` handler of the bulk loop appends. -/
def bulkFailedOutcome (item : BulkItem) (e : PyExn) : TaskImportResult :=
  { success := false, external_id := some item.external_id,
    source := item.source, error := some e.str }

/-- The per-item body of the `bulk_import_books` loop: run the import,
catching any exception into a failed outcome, and bump the counters. -/
def bulkStep (fetch : Adapter) (now : Nat) (user_id : Option Nat)
    (acc : List TaskImportResult × Nat × Nat × Store) (item : BulkItem) :
    List TaskImportResult × Nat × Nat × Store :=
  match importBookAsync fetch now user_id acc.2.2.2 item.source item.external_id
      item.overrides with
  | .ok (r, st') =>
      (acc.1 ++ [r],
       (if r.success then acc.2.1 + 1 else acc.2.1),
       (if r.success then acc.2.2.1 else acc.2.2.1 + 1),
       st')
  | .error e =>
      (acc.1 ++ [bulkFailedOutcome item e], acc.2.1, acc.2.2.1 + 1, acc.2.2.2)

/-- Embeds `bulk_import_books`: process every item in order, then report
`total`/`successful`/`failed` and the ordered outcome list. -/
def bulkImportBooks (fetch : Adapter) (now : Nat) (user_id : Option Nat)
    (st : Store) (items : List BulkItem) : BulkReport × Store :=
  let out := items.foldl (bulkStep fetch now user_id) ([], 0, 0, st)
  ({ total := items.length, successful := out.2.1, failed := out.2.2.1,
     results := out.1 }, out.2.2.2)

/-- The result dict built by the refresh task. -/
structure UpdateResult where
  success : Bool
  external_book_id : Nat
  message : Option String := none
  error : Option String := none
deriving DecidableEq, Repr

/-- The field assignments of `_update_metadata_async`: every upstream-sourced
column is overwritten from the fresh fetch and `last_fetched_at` is stamped;
no other column is assigned. -/
def updateMetadataFields (b : ExternalBook) (bd : ExternalBookResult)
    (year : Option Int) (now : Nat) : ExternalBook :=
  { b with
    title := bd.title
    authors := bd.authors
    description := bd.description
    cover_url := bd.thumbnail_url
    published_date := bd.published_date
    published_year := year
    language := bd.language
    categories := bd.categories
    isbn_10 := bd.isbn_10
    isbn_13 := bd.isbn_13
    publisher := bd.publisher
    page_count := bd.page_count
    average_rating := bd.average_rating
    ratings_count := bd.ratings_count
    preview_link := bd.preview_link
    info_link := bd.info_link
    metadata_json := bd.raw_metadata
    last_fetched_at := some now }

/-- Embeds `_update_metadata_async`: dispatch on the stored source string, re-fetch
details (errors propagate), re-parse the year, then overwrite the row found
by primary key. -/
def updateMetadataAsync (fetch : Adapter) (now : Nat) (st : Store)
    (source external_id : String) (external_book_id : Nat) :
    Except PyExn (UpdateResult × Store) :=
  let src? : Except PyExn ExternalSource :=
    if source = "google_books" then .ok .google_books
    else if source = "open_library" then .ok .open_library
    else .error (.valueError "Unsupported source")
  match src? with
  | .error e => .error e
  | .ok src =>
      match fetch src external_id with
      | .err e => .error (.apiError e)
      | .ok bd =>
          let published_year := parsePublishedYear bd.published_date
          match findById st.books external_book_id with
          | none =>
              .ok ({ success := false, external_book_id := external_book_id,
                     error := some "Book not found" }, st)
          | some book =>
              let updated := updateMetadataFields book bd published_year now
              .ok ({ success := true, external_book_id := external_book_id,
                     message := some "Metadata updated successfully" },
                   { st with books := putById st.books updated })

/-! ## Retry policy (celery task wrappers) -/

/-- Decorator bound `max_retries=3` on the `import_single_book` task. -/
def importSingleMaxRetries : Nat := 3

/-- Decorator bound `max_retries=3` on the `update_book_metadata` task. -/
def updateMetadataMaxRetries : Nat := 3

/-- What a task invocation does: reschedule itself with a countdown, or
finish with a result dict. -/
inductive TaskDisposition
  | retried (countdown : Nat)
  | done (r : TaskImportResult)
deriving DecidableEq, Repr

/-- Embeds `import_single_book`: run the async import; on `ExternalAPIError`,
retry with `countdown=60 * (retries + 1)` only when `status_code == 429`,
otherwise return a failed dict; any other exception also becomes a failed
dict. `retries` is `self.request.retries`, the current attempt number. -/
def importSingleBook (fetch : Adapter) (now retries : Nat)
    (user_id : Option Nat) (st : Store) (source external_id : String)
    (overrides : Option MetadataOverrides) : TaskDisposition × Store :=
  match importBookAsync fetch now user_id st (some source) external_id overrides with
  | .ok (r, st') => (.done r, st')
  | .error (.apiError e) =>
      if e.status_code = some 429 then (.retried (60 * (retries + 1)), st)
      else
        (.done { success := false, external_id := some external_id,
                 source := some source, error := some e.str }, st)
  | .error (.valueError m) =>
      (.done { success := false, external_id := some external_id,
               source := some source, error := some m }, st)

/-- What the refresh task invocation does. -/
inductive UpdateDisposition
  | retried (countdown : Nat)
  | done (r : UpdateResult)
deriving DecidableEq, Repr

/-- Embeds `update_book_metadata`: load the row, run the async refresh; on
`ExternalAPIError`, retry with `countdown=60 * (retries + 1)` only when
`status_code == 429`; any other exception becomes a failed dict. -/
def updateBookMetadata (fetch : Adapter) (now retries : Nat) (st : Store)
    (external_book_id : Nat) : UpdateDisposition × Store :=
  match findById st.books external_book_id with
  | none =>
      (.done { success := false, external_book_id := external_book_id,
               error := some "Book not found" }, st)
  | some book =>
      match updateMetadataAsync fetch now st book.source book.external_id
          external_book_id with
      | .ok (r, st') => (.done r, st')
      | .error (.apiError e) =>
          if e.status_code = some 429 then (.retried (60 * (retries + 1)), st)
          else
            (.done { success := false, external_book_id := external_book_id,
                     error := some e.str }, st)
      | .error (.valueError m) =>
          (.done { success := false, external_book_id := external_book_id,
                   error := some m }, st)

/-! ## Concrete scenario inputs used by the claim theorems and witnesses -/

/-- A Google volume whose image links offer `smallThumbnail` and `large`
but no `thumbnail`. -/
def c5Item : GoogleVolume :=
  { id := some "vol1"
    volumeInfo := some
      { title := some "T"
        imageLinks := some
          { smallThumbnail := some "https://img/small.jpg"
            large := some "https://img/large.jpg" } } }

/-- A fixed default canonical result, used only to state closed witnesses. -/
def defaultResult : ExternalBookResult :=
  { external_id := "", source := .google_books, title := "" }

/-- A Google volume carrying two ISBN-10 identifiers. -/
def c6Item : GoogleVolume :=
  { id := some "vol2"
    volumeInfo := some
      { title := some "T"
        industryIdentifiers := some
          [ { idType := some "ISBN_10", identifier := some "1111111111" },
            { idType := some "ISBN_10", identifier := some "2222222222" } ] } }

/-- A search doc carrying six subjects. -/
def c10Doc : OLDoc :=
  { key := some "/works/OL1W"
    subject := some ["s1", "s2", "s3", "s4", "s5", "s6"] }

/-- The slot the fan-out loop ends up storing for a source. -/
def sourceSlot (search : SearchFn) (query : String) (s : ExternalSource) :
    ExternalSearchResponse :=
  match search s with
  | .ok resp => resp
  | .error _ => emptySearchResponse s query

/-- A healthy Open Library response used by the C2 witness. -/
def w2Resp : ExternalSearchResponse :=
  { source := .open_library, query := "q", total_items := 3, items := [],
    search_time_ms := 7 }

/-- A search oracle where Google Books is always rate-limited and Open
Library succeeds. -/
def w2Search : SearchFn := fun s =>
  match s with
  | .google_books =>
      .error { source := .google_books,
               message := "Rate limit exceeded. Please try again later.",
               status_code := some 429 }
  | .open_library => .ok w2Resp

/-- Canonical payload used by the C1 witness. -/
def w1Book : ExternalBookResult :=
  { external_id := "g1", source := .google_books, title := "X" }

/-- Adapter oracle used by the C1 witness. -/
def w1Fetch : Adapter := fun _ _ => .ok w1Book

/-- Import request used by the C1 witness. -/
def w1Req : ImportRequest := { source := .google_books, external_id := "g1" }

/-- Stored row used by the C8 witness. -/
def w8Book : ExternalBook :=
  { id := 1, source := "google_books", external_id := "g1", title := "Old",
    is_imported := true, imported_by_id := some 3, imported_at := some 10,
    imported_book_id := some 42, created_at := 5 }

/-- Fresh upstream payload used by the C8 witness. -/
def w8Bd : ExternalBookResult :=
  { external_id := "g1", source := .google_books, title := "New" }

/-- Adapter oracle used by the C8 witness. -/
def w8Fetch : Adapter := fun _ _ => .ok w8Bd

/-- Items used by the concrete `[A, B, C]` scenario of C3. -/
def cItemA : BulkItem := { source := some "google_books", external_id := "A" }

/-- See `cItemA`. -/
def cItemB : BulkItem := { source := some "google_books", external_id := "B" }

/-- See `cItemA`. -/
def cItemC : BulkItem := { source := some "google_books", external_id := "C" }

/-- An adapter where only item B's external id fails to resolve. -/
def cFetch : Adapter := fun _ eid =>
  if eid = "B" then
    .err { source := .google_books,
           message := "Book with ID 'B' not found", status_code := some 404 }
  else .ok { external_id := eid, source := .google_books, title := "T" }

/-- An adapter that always times out (`ExternalAPIError` with no status
code, the `AdapterUnavailable` shape). -/
def timeoutFetch : Adapter := fun s _ =>
  .err { source := s, message := "Request timed out", status_code := none }

/-- An adapter that is always rate-limited. -/
def rateLimitedFetch : Adapter := fun s _ =>
  .err { source := s, message := "Rate limit exceeded. Please try again later.",
         status_code := some 429 }

/-! ## Claim C7: search limit clamping -/

/-- C7, counterexample: the Open Library search sends `min(max_results, 100)`
upstream, so `max_results = 50` goes out as 50 (not clamped to 40) and
`max_results = 0` goes out as 0 (not raised to 1); the claimed `[1, 40]`
clamp holds only for the Google Books variant. -/
theorem openLibrary_limit_not_clamped :
    openLibraryLimitSent 50 = 50 ∧ ¬ openLibraryLimitSent 50 ≤ 40 ∧
    openLibraryLimitSent 0 = 0 ∧ ¬ (1 : Int) ≤ openLibraryLimitSent 0 := by
  decide

/-- C7, amended: the Google Books search clamps `max_results` to `[1, 40]`
(values already in range pass through); the Open Library search instead
sends `min(max_results, 100)`, capping only above at 100 with no lower
bound. -/
theorem search_limit_clamping (n : Int) :
    1 ≤ googleMaxResultsSent n ∧ googleMaxResultsSent n ≤ 40 ∧
    (1 ≤ n → n ≤ 40 → googleMaxResultsSent n = n) ∧
    openLibraryLimitSent n ≤ 100 ∧
    (n ≤ 100 → openLibraryLimitSent n = n) := by
  refine ⟨?_, ?_, fun h1 h2 => ?_, ?_, fun h => ?_⟩ <;>
    simp only [googleMaxResultsSent, openLibraryLimitSent, MAX_RESULTS_LIMIT,
      min_def, max_def] <;> split_ifs <;> omega

/-- Witness for `search_limit_clamping` at `n = 10`. -/
theorem search_limit_clamping_witness :
    googleMaxResultsSent 10 = 10 ∧ openLibraryLimitSent 10 = 10 :=
  ⟨(search_limit_clamping 10).2.2.1 (by decide) (by decide),
   (search_limit_clamping 10).2.2.2.2 (by decide)⟩

/-! ## Claim C5: thumbnail selection -/

/-- C5, counterexample: with both `large` and `smallThumbnail` present the
parser picks `smallThumbnail`, not the largest variant, because the chain
reads `thumbnail or smallThumbnail or medium or large`. -/
theorem google_thumbnail_not_largest :
    (parseGoogleBook c5Item).map (·.thumbnail_url) = some (some "https://img/small.jpg") ∧
    some (some "https://img/small.jpg") ≠ some (some "https://img/large.jpg") := by
  decide

/-- C5, amended: the canonical result's `thumbnail_url` is the first truthy
variant in the fixed order `thumbnail`, `smallThumbnail`, `medium`, `large`
(then rewritten to `https`), so a smaller variant wins over `large`
whenever it is present. -/
theorem google_thumbnail_preference (item : GoogleVolume) (r : ExternalBookResult)
    (h : parseGoogleBook item = some r) :
    r.thumbnail_url =
      httpsRewrite (bestThumbnail ((item.volumeInfo.getD {}).imageLinks.getD {})) ∧
    ∀ links : ImageLinks,
      (truthyStr links.thumbnail = true → bestThumbnail links = links.thumbnail) ∧
      (truthyStr links.thumbnail = false → truthyStr links.smallThumbnail = true →
        bestThumbnail links = links.smallThumbnail) ∧
      (truthyStr links.thumbnail = false → truthyStr links.smallThumbnail = false →
        truthyStr links.medium = true → bestThumbnail links = links.medium) ∧
      (truthyStr links.thumbnail = false → truthyStr links.smallThumbnail = false →
        truthyStr links.medium = false → bestThumbnail links = links.large) := by
  constructor
  · simp only [parseGoogleBook, Option.some.injEq] at h
    subst h
    rfl
  · intro links
    refine ⟨fun h1 => ?_, fun h1 h2 => ?_, fun h1 h2 h3 => ?_, fun h1 h2 h3 => ?_⟩
    · simp [bestThumbnail, orElseStr, h1]
    · simp [bestThumbnail, orElseStr, h1, h2]
    · simp [bestThumbnail, orElseStr, h1, h2, h3]
    · simp [bestThumbnail, orElseStr, h1, h2, h3]

/-- Witness for `google_thumbnail_preference` on `c5Item`. -/
theorem google_thumbnail_preference_witness :
    ((parseGoogleBook c5Item).getD defaultResult).thumbnail_url =
      some "https://img/small.jpg" := by
  have h := google_thumbnail_preference c5Item
    ((parseGoogleBook c5Item).getD defaultResult) (by decide)
  exact h.1.trans (by decide)

/-! ## Claim C9: concurrent fan-out -/

/-- C9: evaluated at the default source pair, the fan-out trace is fully
serialized — the Open Library search starts only after the Google Books
search finishes — so it is not the case that every per-source call is
issued before any of them is awaited. The bare coroutines in `tasks` only
begin executing inside the sequential `await` loop. -/
theorem searchAll_fanout_serialized :
    searchAllTrace [ExternalSource.google_books, ExternalSource.open_library] =
      [.start .google_books, .finish .google_books,
       .start .open_library, .finish .open_library] ∧
    startsBeforeFinishes
      (searchAllTrace [ExternalSource.google_books, ExternalSource.open_library]) = false := by
  decide

/-! ## Claim C6: ISBN extraction order -/

/-- C6, counterexample: with two ISBN-10 identifiers, the Google Books
parser keeps the last one (each match overwrites the variable), so the
claimed first-match-wins rule fails. -/
theorem google_isbn_first_match_fails :
    (parseGoogleBook c6Item).map (·.isbn_10) = some (some "2222222222") ∧
    some (some "2222222222") ≠ some (some "1111111111") := by
  decide

/-- A string of length 10 or 13 is non-empty, hence truthy. -/
lemma truthy_of_isbn_length (s : String) (h : s.length = 10 ∨ s.length = 13) :
    truthyStr (some s) = true := by
  simp only [truthyStr, ne_eq, decide_eq_true_eq]
  rintro rfl
  simp at h

/-- Last-match-wins characterisation of the Google ISBN fold, with an
arbitrary starting accumulator. -/
lemma google_fold_last_wins (ids : List IndustryIdentifier) (a b : Option String) :
    ids.foldl googleIsbnStep (a, b) =
      ((ids.reverse.find? (fun i => decide (i.idType.getD "" = "ISBN_10"))).elim a
          (·.identifier),
       (ids.reverse.find? (fun i => decide (i.idType.getD "" = "ISBN_13"))).elim b
          (·.identifier)) := by
  induction ids generalizing a b with
  | nil => simp
  | cons x xs ih =>
      simp only [List.foldl_cons, List.reverse_cons, List.find?_append, ih]
      by_cases h10 : x.idType.getD "" = "ISBN_10" <;>
        by_cases h13 : x.idType.getD "" = "ISBN_13" <;>
        cases hf10 : xs.reverse.find? (fun i => decide (i.idType.getD "" = "ISBN_10")) <;>
        cases hf13 : xs.reverse.find? (fun i => decide (i.idType.getD "" = "ISBN_13")) <;>
        simp_all [googleIsbnStep, Option.or]

/-- First-match-wins characterisation of the Open Library ISBN fold, with an
arbitrary starting accumulator. -/
lemma ol_fold_first_wins (isbns : List String) (a b : Option String) :
    isbns.foldl olIsbnStep (a, b) =
      ((if truthyStr a then a
        else (isbns.find? (fun s => decide (s.length = 10))).elim a some),
       (if truthyStr b then b
        else (isbns.find? (fun s => decide (s.length = 13))).elim b some)) := by
  induction isbns generalizing a b with
  | nil => simp
  | cons x xs ih =>
      simp only [List.foldl_cons, ih]
      by_cases h10 : x.length = 10
      · have h13 : ¬ x.length = 13 := by omega
        have tx : truthyStr (some x) = true := truthy_of_isbn_length x (Or.inl h10)
        by_cases ta : truthyStr a
        · simp [olIsbnStep, ta, h10, h13, List.find?_cons]
        · simp [olIsbnStep, ta, h10, h13, tx, List.find?_cons]
      · by_cases h13 : x.length = 13
        · have tx : truthyStr (some x) = true := truthy_of_isbn_length x (Or.inr h13)
          by_cases tb : truthyStr b
          · simp [olIsbnStep, tb, h10, h13, List.find?_cons]
          · simp [olIsbnStep, tb, h10, h13, tx, List.find?_cons]
        · simp [olIsbnStep, h10, h13, List.find?_cons]

/-- C6, amended: the extraction is type-tagged first-match-wins in neither
adapter: for Google Books each matching identifier overwrites the variable,
so the LAST identifier of each tagged type wins (the first match scanning
from the end); Open Library identifiers carry no type tags — they are bare
strings discriminated by length, and there the FIRST match of each length
wins. -/
theorem isbn_extraction_order (ids : List IndustryIdentifier) (isbns : List String) :
    (extractGoogleIsbns ids).1 =
      (ids.reverse.find? (fun i => decide (i.idType.getD "" = "ISBN_10"))).bind
        (·.identifier) ∧
    (extractGoogleIsbns ids).2 =
      (ids.reverse.find? (fun i => decide (i.idType.getD "" = "ISBN_13"))).bind
        (·.identifier) ∧
    (extractOpenLibraryIsbns isbns).1 = isbns.find? (fun s => decide (s.length = 10)) ∧
    (extractOpenLibraryIsbns isbns).2 = isbns.find? (fun s => decide (s.length = 13)) := by
  have hg := google_fold_last_wins ids none none
  have ho := ol_fold_first_wins isbns none none
  refine ⟨?_, ?_, ?_, ?_⟩
  · rw [extractGoogleIsbns, hg]
    cases ids.reverse.find? (fun i => decide (i.idType.getD "" = "ISBN_10")) <;> rfl
  · rw [extractGoogleIsbns, hg]
    cases ids.reverse.find? (fun i => decide (i.idType.getD "" = "ISBN_13")) <;> rfl
  · rw [extractOpenLibraryIsbns, ho]
    simp only [truthyStr, Bool.false_eq_true, if_false]
    cases isbns.find? (fun s => decide (s.length = 10)) <;> rfl
  · rw [extractOpenLibraryIsbns, ho]
    simp only [truthyStr, Bool.false_eq_true, if_false]
    cases isbns.find? (fun s => decide (s.length = 13)) <;> rfl

/-! ## Claim C10: Open Library category truncation -/

/-- C10: both Open Library paths keep only the first five upstream subject
entries, in upstream order (`[:5]` slicing), silently dropping the rest,
while the Google Books parser passes the full upstream categories list
through. -/
theorem ol_category_truncation (doc : OLDoc) (r : ExternalBookResult)
    (fetchAuthor : String → AuthorFetch) (work_key : String) (w : OLWork)
    (item : GoogleVolume) (rg : ExternalBookResult)
    (hdoc : parseOpenLibraryBook doc = some r)
    (hg : parseGoogleBook item = some rg) :
    r.categories = (doc.subject.getD []).take 5 ∧
    r.categories.length ≤ 5 ∧
    (parseOpenLibraryWork fetchAuthor work_key w).categories =
      (w.subjects.getD []).take 5 ∧
    (parseOpenLibraryWork fetchAuthor work_key w).categories.length ≤ 5 ∧
    rg.categories = (item.volumeInfo.getD {}).categories.getD [] := by
  have hr : r.categories = (doc.subject.getD []).take 5 := by
    simp only [parseOpenLibraryBook] at hdoc
    split at hdoc
    · exact absurd hdoc (by simp)
    · simp only [Option.some.injEq] at hdoc
      rw [← hdoc]
  have hrg : rg.categories = (item.volumeInfo.getD {}).categories.getD [] := by
    simp only [parseGoogleBook, Option.some.injEq] at hg
    rw [← hg]
  refine ⟨hr, ?_, rfl, ?_, hrg⟩
  · rw [hr]
    simp only [List.length_take]
    exact min_le_left _ _
  · simp only [parseOpenLibraryWork, List.length_take]
    exact min_le_left _ _

/-- Witness for `ol_category_truncation` on `c10Doc`: six upstream subjects
collapse to the first five. -/
theorem ol_category_truncation_witness :
    ((parseOpenLibraryBook c10Doc).getD defaultResult).categories =
      ["s1", "s2", "s3", "s4", "s5"] := by
  have h := ol_category_truncation c10Doc
    ((parseOpenLibraryBook c10Doc).getD defaultResult) (fun _ => .failed) "k" {}
    {} ((parseGoogleBook {}).getD defaultResult) (by decide) (by decide)
  exact h.1.trans (by decide)

/-! ## Claim C2: fan-out isolation -/

/-- Unfolding dict lookup over a cons cell. -/
lemma dictGet_cons (p : ExternalSource × ExternalSearchResponse)
    (m : List (ExternalSource × ExternalSearchResponse)) (k : ExternalSource) :
    dictGet (p :: m) k = if p.1 = k then some p.2 else dictGet m k := by
  by_cases hp : p.1 = k
  · rw [dictGet, List.find?_cons_of_pos _ (by simp [hp]), if_pos hp]
    rfl
  · rw [dictGet, List.find?_cons_of_neg _ (by simp [hp]), if_neg hp]
    rfl

/-- Looking up the inserted key. -/
lemma dictGet_dictInsert_self (m : List (ExternalSource × ExternalSearchResponse))
    (k : ExternalSource) (v : ExternalSearchResponse) :
    dictGet (dictInsert m k v) k = some v := by
  induction m with
  | nil => simp [dictInsert, dictGet_cons]
  | cons p m ih =>
      rw [dictInsert]
      by_cases hp : p.1 = k
      · simp [hp, dictGet_cons]
      · simpa [hp, dictGet_cons] using ih

/-- Other keys are unaffected by a dict insert. -/
lemma dictGet_dictInsert_ne (m : List (ExternalSource × ExternalSearchResponse))
    (k k' : ExternalSource) (v : ExternalSearchResponse) (h : k' ≠ k) :
    dictGet (dictInsert m k v) k' = dictGet m k' := by
  have hk : ¬ k = k' := fun hh => h hh.symm
  induction m with
  | nil => simp [dictInsert, dictGet_cons, hk]
  | cons p m ih =>
      rw [dictInsert]
      by_cases hp : p.1 = k
      · rw [if_pos hp, dictGet_cons, dictGet_cons, if_neg hk, if_neg (hp ▸ hk)]
      · rw [if_neg hp, dictGet_cons, dictGet_cons, ih]

/-- What the fan-out fold stores for each source, for any starting dict:
sources in the remaining list get their final slot, others keep their
current entry. -/
lemma searchAll_fold_get (search : SearchFn) (query : String)
    (l : List ExternalSource) :
    ∀ (m : List (ExternalSource × ExternalSearchResponse)) (s : ExternalSource),
      dictGet ((l.map (fun s => (s, search s))).foldl (searchStep query) m) s =
        if s ∈ l then some (sourceSlot search query s) else dictGet m s := by
  induction l with
  | nil => intro m s; simp
  | cons x xs ih =>
      intro m s
      simp only [List.map_cons, List.foldl_cons]
      rw [ih]
      by_cases hs : s ∈ xs
      · simp [hs, List.mem_cons]
      · by_cases hsx : s = x
        · subst hsx
          rw [if_neg hs, if_pos (List.mem_cons_self s xs)]
          cases hsearch : search s <;>
            simp [searchStep, sourceSlot, hsearch, dictGet_dictInsert_self]
        · rw [if_neg hs, if_neg (by simp [List.mem_cons, hsx, hs])]
          cases hsearch : search x <;>
            simp [searchStep, hsearch, dictGet_dictInsert_ne m x s _ hsx]

/-- C1-style statement for C2: for every query and requested source list,
every requested source has an entry in the returned mapping; a source whose
coroutine raised an adapter error (rate limiting included) gets the empty
response (`total_items = 0`, no items, `search_time_ms = 0`), and a source
whose search succeeded gets its response unchanged; omitting `sources`
defaults to both configured sources. -/
theorem searchAll_fanout_isolation (search : SearchFn) (query : String)
    (srcs : List ExternalSource) (s : ExternalSource) (hmem : s ∈ srcs) :
    (dictGet (searchAllSources search query (some srcs)) s).isSome = true ∧
    (∀ e, search s = .error e →
        dictGet (searchAllSources search query (some srcs)) s =
          some (emptySearchResponse s query)) ∧
    (∀ resp, search s = .ok resp →
        dictGet (searchAllSources search query (some srcs)) s = some resp) ∧
    (emptySearchResponse s query).total_items = 0 ∧
    (emptySearchResponse s query).items = [] ∧
    (emptySearchResponse s query).search_time_ms = 0 ∧
    searchAllSources search query none =
      searchAllSources search query
        (some [ExternalSource.google_books, ExternalSource.open_library]) := by
  have hfold : dictGet (searchAllSources search query (some srcs)) s =
      some (sourceSlot search query s) := by
    have h := searchAll_fold_get search query srcs [] s
    rw [if_pos hmem] at h
    exact h
  refine ⟨?_, fun e he => ?_, fun resp hresp => ?_, rfl, rfl, rfl, rfl⟩
  · rw [hfold]; rfl
  · rw [hfold]; simp [sourceSlot, he]
  · rw [hfold]; simp [sourceSlot, hresp]

/-- Witness for `searchAll_fanout_isolation`: the failing source gets the
empty slot, the healthy one its response unchanged. -/
theorem searchAll_fanout_isolation_witness :
    dictGet (searchAllSources w2Search "q"
        (some [ExternalSource.google_books, ExternalSource.open_library]))
        ExternalSource.google_books =
      some (emptySearchResponse .google_books "q") ∧
    dictGet (searchAllSources w2Search "q"
        (some [ExternalSource.google_books, ExternalSource.open_library]))
        ExternalSource.open_library =
      some w2Resp :=
  ⟨(searchAll_fanout_isolation w2Search "q" _ _ (by decide)).2.1 _ rfl,
   (searchAll_fanout_isolation w2Search "q" _ _ (by decide)).2.2.1 w2Resp rfl⟩

/-! ## Claim C1: idempotent import -/

/-- Looking up a freshly committed row by its key. -/
lemma findByKey_putByKey (books : List ExternalBook) (b : ExternalBook) :
    findByKey (putByKey books b) b.source b.external_id = some b := by
  rw [putByKey, findByKey, List.find?_cons_of_pos _ (by simp)]

/-- C1: (a) when the stored record for `(source, external_id)` exists with
`is_imported = true`, the import endpoint returns success immediately with
the existing record id and the "Book already imported" message, making no
adapter call and leaving the store untouched; (b) hence two imports of a
fresh key make exactly one adapter call in total (1 then 0) and both return
the same record id. -/
theorem importOne_idempotent (fetch : Adapter) (now₁ now₂ uid : Nat) (st : Store)
    (req : ImportRequest) :
    (∀ ex, findByKey st.books req.source.value req.external_id = some ex →
        ex.is_imported = true →
        importExternalBook fetch now₁ uid st req =
          ({ external_id := req.external_id, source := req.source, success := true,
             message := "Book already imported", external_book_id := some ex.id },
           st, 0)) ∧
    (∀ bd, findByKey st.books req.source.value req.external_id = none →
        fetch req.source req.external_id = .ok bd →
        (importExternalBook fetch now₁ uid st req).2.2 = 1 ∧
        (importExternalBook fetch now₂ uid
            (importExternalBook fetch now₁ uid st req).2.1 req).2.2 = 0 ∧
        (importExternalBook fetch now₁ uid st req).1.success = true ∧
        (importExternalBook fetch now₁ uid st req).1.external_book_id =
          some st.next_id ∧
        (importExternalBook fetch now₂ uid
            (importExternalBook fetch now₁ uid st req).2.1 req).1.success = true ∧
        (importExternalBook fetch now₂ uid
            (importExternalBook fetch now₁ uid st req).2.1 req).1.external_book_id =
          some st.next_id ∧
        (importExternalBook fetch now₂ uid
            (importExternalBook fetch now₁ uid st req).2.1 req).1.message =
          "Book already imported") := by
  constructor
  · intro ex hfind himp
    unfold importExternalBook
    simp [hfind, himp]
  · intro bd hnone hf
    have h1 : importExternalBook fetch now₁ uid st req =
        ({ external_id := req.external_id, source := req.source, success := true,
           message := "Book imported successfully",
           external_book_id := some st.next_id },
         ⟨putByKey st.books
            (applyImportFields
              { id := st.next_id, source := req.source.value,
                external_id := req.external_id, title := "", created_at := now₁ }
              bd (some req.overrides) (parsePublishedYear bd.published_date)
              (some uid) now₁),
          st.next_id + 1⟩, 1) := by
      unfold importExternalBook
      simp [hnone, hf]
    have h2 : findByKey
        (putByKey st.books
          (applyImportFields
            { id := st.next_id, source := req.source.value,
              external_id := req.external_id, title := "", created_at := now₁ }
            bd (some req.overrides) (parsePublishedYear bd.published_date)
            (some uid) now₁))
        req.source.value req.external_id =
        some (applyImportFields
          { id := st.next_id, source := req.source.value,
            external_id := req.external_id, title := "", created_at := now₁ }
          bd (some req.overrides) (parsePublishedYear bd.published_date)
          (some uid) now₁) :=
      findByKey_putByKey st.books _
    have h3 : importExternalBook fetch now₂ uid
        (importExternalBook fetch now₁ uid st req).2.1 req =
        ({ external_id := req.external_id, source := req.source, success := true,
           message := "Book already imported", external_book_id := some st.next_id },
         (importExternalBook fetch now₁ uid st req).2.1, 0) := by
      rw [h1]
      unfold importExternalBook
      simp [h2]
      rfl
    rw [h1] at h3 ⊢
    rw [h3]
    exact ⟨rfl, rfl, rfl, rfl, rfl, rfl, rfl⟩

/-- Witness for `importOne_idempotent`: importing the same key twice into an
empty store makes one adapter call then zero, and both calls agree on the
record id. -/
theorem importOne_idempotent_witness :
    (importExternalBook w1Fetch 1 7 ⟨[], 0⟩ w1Req).2.2 = 1 ∧
    (importExternalBook w1Fetch 2 7
        (importExternalBook w1Fetch 1 7 ⟨[], 0⟩ w1Req).2.1 w1Req).2.2 = 0 ∧
    (importExternalBook w1Fetch 1 7 ⟨[], 0⟩ w1Req).1.external_book_id = some 0 ∧
    (importExternalBook w1Fetch 2 7
        (importExternalBook w1Fetch 1 7 ⟨[], 0⟩ w1Req).2.1 w1Req).1.external_book_id =
      some 0 := by
  have h := (importOne_idempotent w1Fetch 1 2 7 ⟨[], 0⟩ w1Req).2 w1Book rfl rfl
  exact ⟨h.1, h.2.1, h.2.2.2.1, h.2.2.2.2.2.1⟩

/-! ## Claim C8: refresh frame effect -/

/-- Looking up a freshly committed row by its primary key. -/
lemma findById_putById (books : List ExternalBook) (b : ExternalBook) :
    findById (putById books b) b.id = some b := by
  rw [putById, findById, List.find?_cons_of_pos _ (by simp)]

/-- C8: a successful background metadata refresh commits exactly the row
obtained by overwriting the upstream-sourced columns from the fresh fetch
and stamping `last_fetched_at = now`; the import-bookkeeping columns
`imported_at`, `imported_by_id`, `is_imported`, `imported_book_id` and
`created_at` keep their previous values. -/
theorem refresh_frame_effect (fetch : Adapter) (now : Nat) (st : Store)
    (source external_id : String) (ebid : Nat) (book : ExternalBook)
    (bd : ExternalBookResult)
    (hsrc : source = "google_books" ∨ source = "open_library")
    (hfetch : fetch (if source = "google_books" then .google_books else .open_library)
        external_id = .ok bd)
    (hbook : findById st.books ebid = some book) :
    updateMetadataAsync fetch now st source external_id ebid =
      .ok ({ success := true, external_book_id := ebid,
             message := some "Metadata updated successfully" },
           { st with books := (putById st.books
               (updateMetadataFields book bd (parsePublishedYear bd.published_date)
                 now)) }) ∧
    findById (putById st.books
        (updateMetadataFields book bd (parsePublishedYear bd.published_date) now))
        ebid =
      some (updateMetadataFields book bd (parsePublishedYear bd.published_date) now) ∧
    (updateMetadataFields book bd (parsePublishedYear bd.published_date)
        now).imported_at = book.imported_at ∧
    (updateMetadataFields book bd (parsePublishedYear bd.published_date)
        now).imported_by_id = book.imported_by_id ∧
    (updateMetadataFields book bd (parsePublishedYear bd.published_date)
        now).is_imported = book.is_imported ∧
    (updateMetadataFields book bd (parsePublishedYear bd.published_date)
        now).imported_book_id = book.imported_book_id ∧
    (updateMetadataFields book bd (parsePublishedYear bd.published_date)
        now).created_at = book.created_at ∧
    (updateMetadataFields book bd (parsePublishedYear bd.published_date)
        now).last_fetched_at = some now ∧
    (updateMetadataFields book bd (parsePublishedYear bd.published_date)
        now).title = bd.title ∧
    (updateMetadataFields book bd (parsePublishedYear bd.published_date)
        now).metadata_json = bd.raw_metadata := by
  have hid : book.id = ebid := by
    have := List.find?_some hbook
    simpa using this
  have hfind : findById (putById st.books
      (updateMetadataFields book bd (parsePublishedYear bd.published_date) now))
      ebid =
      some (updateMetadataFields book bd (parsePublishedYear bd.published_date)
        now) := by
    have h := findById_putById st.books
      (updateMetadataFields book bd (parsePublishedYear bd.published_date) now)
    rw [show (updateMetadataFields book bd (parsePublishedYear bd.published_date)
      now).id = ebid from hid] at h
    exact h
  refine ⟨?_, hfind, rfl, rfl, rfl, rfl, rfl, rfl, rfl, rfl⟩
  rcases hsrc with hsrc | hsrc <;> subst hsrc
  · rw [if_pos rfl] at hfetch
    unfold updateMetadataAsync
    simp [hfetch, hbook]
  · rw [if_neg (by decide)] at hfetch
    unfold updateMetadataAsync
    simp [hfetch, hbook]

/-- Witness for `refresh_frame_effect` on a one-row store. -/
theorem refresh_frame_effect_witness :
    updateMetadataAsync w8Fetch 99 ⟨[w8Book], 2⟩ "google_books" "g1" 1 =
      .ok ({ success := true, external_book_id := 1,
             message := some "Metadata updated successfully" },
           ⟨putById [w8Book]
              (updateMetadataFields w8Book w8Bd
                (parsePublishedYear w8Bd.published_date) 99), 2⟩) ∧
    (updateMetadataFields w8Book w8Bd (parsePublishedYear w8Bd.published_date)
        99).imported_at = some 10 ∧
    (updateMetadataFields w8Book w8Bd (parsePublishedYear w8Bd.published_date)
        99).is_imported = true ∧
    (updateMetadataFields w8Book w8Bd (parsePublishedYear w8Bd.published_date)
        99).last_fetched_at = some 99 := by
  have h := refresh_frame_effect w8Fetch 99 ⟨[w8Book], 2⟩ "google_books" "g1" 1
    w8Book w8Bd (Or.inl rfl) (by decide) (by decide)
  exact ⟨h.1, h.2.2.1.trans (by decide), h.2.2.2.2.1.trans (by decide),
    h.2.2.2.2.2.2.2.1⟩

/-! ## Claim C3: partial-batch failure -/

/-- Any successful outcome of the async import carries `success = True` and
echoes the item's `external_id` and `source`. -/
lemma importBookAsync_ok_fields (fetch : Adapter) (now : Nat) (uid : Option Nat)
    (st : Store) (source : Option String) (external_id : String)
    (ov : Option MetadataOverrides) (r : TaskImportResult) (st' : Store)
    (h : importBookAsync fetch now uid st source external_id ov = .ok (r, st')) :
    r.success = true ∧ r.external_id = some external_id ∧ r.source = source := by
  simp only [importBookAsync] at h
  repeat' split at h
  all_goals try cases h
  all_goals exact ⟨rfl, rfl, rfl⟩

/-- Successes and failures of the outcome list partition its length. -/
lemma length_filter_success_partition (l : List TaskImportResult) :
    (l.filter (fun r => r.success)).length +
      (l.filter (fun r => !r.success)).length = l.length := by
  induction l with
  | nil => rfl
  | cons x l ih => cases hx : x.success <;> simp [List.filter_cons, hx, ← ih] <;> omega

/-- Invariant of the `bulk_import_books` loop, for any starting accumulator
whose counters match its outcome list: every item contributes exactly one
outcome, in order, echoing its ids, and the counters stay exact. -/
lemma bulk_fold_spec (fetch : Adapter) (now : Nat) (uid : Option Nat)
    (items : List BulkItem) :
    ∀ (results : List TaskImportResult) (s f : Nat) (st : Store),
      s = (results.filter (fun r => r.success)).length →
      f = (results.filter (fun r => !r.success)).length →
      (items.foldl (bulkStep fetch now uid) (results, s, f, st)).1.length =
          results.length + items.length ∧
      (items.foldl (bulkStep fetch now uid) (results, s, f, st)).2.1 =
        ((items.foldl (bulkStep fetch now uid) (results, s, f, st)).1.filter
            (fun r => r.success)).length ∧
      (items.foldl (bulkStep fetch now uid) (results, s, f, st)).2.2.1 =
        ((items.foldl (bulkStep fetch now uid) (results, s, f, st)).1.filter
            (fun r => !r.success)).length ∧
      (items.foldl (bulkStep fetch now uid) (results, s, f, st)).1.map
          (fun r => (r.external_id, r.source)) =
        results.map (fun r => (r.external_id, r.source)) ++
          items.map (fun it => (some it.external_id, it.source)) := by
  induction items with
  | nil =>
      intro results s f st hs hf
      simp [hs, hf]
  | cons item items ih =>
      intro results s f st hs hf
      simp only [List.foldl_cons, List.map_cons, List.length_cons]
      cases h : importBookAsync fetch now uid st item.source item.external_id
          item.overrides with
      | ok pr =>
          obtain ⟨r, st'⟩ := pr
          obtain ⟨hsucc, hext, hsrc⟩ :=
            importBookAsync_ok_fields fetch now uid st item.source item.external_id
              item.overrides r st' h
          have hstep : bulkStep fetch now uid (results, s, f, st) item =
              (results ++ [r], s + 1, f, st') := by
            simp [bulkStep, h, hsucc]
          rw [hstep]
          obtain ⟨l1, l2, l3, l4⟩ := ih (results ++ [r]) (s + 1) f st'
            (by simp [List.filter_append, hs, hsucc])
            (by simp [List.filter_append, hf, hsucc])
          refine ⟨by rw [l1]; simp; omega, l2, l3, ?_⟩
          rw [l4]
          simp [hext, hsrc]
      | error e =>
          have hstep : bulkStep fetch now uid (results, s, f, st) item =
              (results ++ [bulkFailedOutcome item e], s, f + 1, st) := by
            simp [bulkStep, h]
          rw [hstep]
          obtain ⟨l1, l2, l3, l4⟩ := ih
            (results ++ [bulkFailedOutcome item e]) s (f + 1) st
            (by simp [List.filter_append, hs, bulkFailedOutcome])
            (by simp [List.filter_append, hf, bulkFailedOutcome])
          refine ⟨by rw [l1]; simp; omega, l2, l3, ?_⟩
          rw [l4]
          simp [bulkFailedOutcome]

/-- C3: the bulk import yields one outcome per input item, in input order,
each echoing its item's ids; a failing item is converted to a failed
outcome without stopping the rest; `total` is the input length and
`successful`/`failed` are exact counts over the outcome list. Concretely,
`[A, B, C]` with only B failing (`NotFound`) gives `total = 3`,
`successful = 2`, `failed = 1`, with A's and C's outcomes succeeding. -/
theorem bulk_partial_failure (fetch : Adapter) (now : Nat) (uid : Option Nat)
    (st : Store) (items : List BulkItem) :
    (bulkImportBooks fetch now uid st items).1.total = items.length ∧
    (bulkImportBooks fetch now uid st items).1.results.length = items.length ∧
    (bulkImportBooks fetch now uid st items).1.successful =
      ((bulkImportBooks fetch now uid st items).1.results.filter
          (fun r => r.success)).length ∧
    (bulkImportBooks fetch now uid st items).1.failed =
      ((bulkImportBooks fetch now uid st items).1.results.filter
          (fun r => !r.success)).length ∧
    (bulkImportBooks fetch now uid st items).1.successful +
      (bulkImportBooks fetch now uid st items).1.failed = items.length ∧
    (bulkImportBooks fetch now uid st items).1.results.map
        (fun r => (r.external_id, r.source)) =
      items.map (fun it => (some it.external_id, it.source)) ∧
    (bulkImportBooks cFetch 0 none ⟨[], 0⟩ [cItemA, cItemB, cItemC]).1.total = 3 ∧
    (bulkImportBooks cFetch 0 none ⟨[], 0⟩ [cItemA, cItemB, cItemC]).1.successful = 2 ∧
    (bulkImportBooks cFetch 0 none ⟨[], 0⟩ [cItemA, cItemB, cItemC]).1.failed = 1 ∧
    (bulkImportBooks cFetch 0 none ⟨[], 0⟩
        [cItemA, cItemB, cItemC]).1.results.map (fun r => r.success) =
      [true, false, true] := by
  obtain ⟨l1, l2, l3, l4⟩ := bulk_fold_spec fetch now uid items [] 0 0 st rfl rfl
  have hlen : (bulkImportBooks fetch now uid st items).1.results.length =
      items.length := by
    show (items.foldl (bulkStep fetch now uid) ([], 0, 0, st)).1.length = items.length
    rw [l1]
    simp
  refine ⟨rfl, hlen, l2, l3, ?_, by simpa using l4, by decide, by decide, by decide,
    by decide⟩
  show (items.foldl (bulkStep fetch now uid) ([], 0, 0, st)).2.1 +
      (items.foldl (bulkStep fetch now uid) ([], 0, 0, st)).2.2.1 = items.length
  rw [l2, l3, length_filter_success_partition]
  exact hlen

/-! ## Claim C4: retry policy coverage -/

/-- C4, counterexample: a transient timeout (status code `None`) makes
the import task return a failed outcome immediately instead of rescheduling a
retry — the `countdown=60 * (retries + 1)` retry is raised only for
`status_code == 429`. -/
theorem transient_error_not_retried :
    (importSingleBook timeoutFetch 0 0 none ⟨[], 0⟩ "google_books" "x" none).1 =
      .done { success := false, external_id := some "x",
              source := some "google_books",
              error := some "google_books: Request timed out" } ∧
    (importSingleBook timeoutFetch 0 0 none ⟨[], 0⟩ "google_books" "x" none).1 ≠
      .retried (60 * (0 + 1)) := by
  decide

/-- C4, amended: when the adapter call of a background task raises
`ExternalAPIError`, only `status_code == 429` (rate limiting) triggers a
retry, rescheduled with the linear backoff `countdown = 60 * (retries + 1)`
and bounded by the decorators' `max_retries = 3`; every other adapter
failure — timeouts and connection errors (`AdapterUnavailable`), 404
(`NotFound`) and other statuses — returns a failed outcome with no retry,
as does a validation error. The same dispatch governs both
`import_single_book` and `update_book_metadata`. -/
theorem task_retry_policy (fetch : Adapter) (now retries : Nat) (uid : Option Nat)
    (st : Store) (external_id : String) (ov : Option MetadataOverrides)
    (e : ExternalAPIError) (book : ExternalBook) (ebid : Nat)
    (hf : fetch .google_books external_id = .err e) :
    importSingleBook fetch now retries uid st "google_books" external_id ov =
      ((if e.status_code = some 429 then .retried (60 * (retries + 1))
        else .done { success := false, external_id := some external_id,
                     source := some "google_books", error := some e.str }), st) ∧
    importSingleMaxRetries = 3 ∧
    updateMetadataMaxRetries = 3 ∧
    (findById st.books ebid = some book → book.source = "google_books" →
      fetch .google_books book.external_id = .err e →
      updateBookMetadata fetch now retries st ebid =
        ((if e.status_code = some 429 then .retried (60 * (retries + 1))
          else .done { success := false, external_book_id := ebid,
                       error := some e.str }), st)) := by
  refine ⟨?_, rfl, rfl, fun hbook hbsrc hbf => ?_⟩
  · unfold importSingleBook importBookAsync
    simp only [reduceIte]
    rw [hf]
    by_cases h429 : e.status_code = some 429 <;> simp [h429]
  · unfold updateBookMetadata
    rw [hbook]
    dsimp only
    rw [hbsrc]
    unfold updateMetadataAsync
    simp only [reduceIte]
    rw [hbf]
    by_cases h429 : e.status_code = some 429 <;> simp [h429]

/-- Witness for `task_retry_policy`: a 429 failure on the third attempt is
rescheduled with countdown `60 * 3`. -/
theorem task_retry_policy_witness :
    (importSingleBook rateLimitedFetch 0 2 none ⟨[], 0⟩ "google_books" "x" none) =
      (.retried 180, (⟨[], 0⟩ : Store)) ∧ importSingleMaxRetries = 3 := by
  have h := task_retry_policy rateLimitedFetch 0 2 none ⟨[], 0⟩ "x" none
    { source := .google_books,
      message := "Rate limit exceeded. Please try again later.",
      status_code := some 429 }
    { id := 0, source := "", external_id := "", title := "" } 0 rfl
  refine ⟨h.1.trans (by decide), h.2.1⟩

end BookPipeline
